import Mathlib

/-!
Verification of the authentication and per-resource authorization contract of
the fastapi-nextjs-todo service, as a shallow embedding in Lean 4.

The repository contains several parallel implementations of the same CRUD
layer.  We embed the two variants the claims refer to:

* the "manual CRUD" variant under `api/v1` plus `crud/` plus `models/`
  (routes fetch a document by id and then compare its `user_id` with the
  acting user, yielding 404 then 403);
* the "route-embedded" variant under `backend/api/v1` (routes query the
  document store with a compound filter containing both `_id` and `user_id`);
* the ODM-style variant under `app/` (crud functions scoped by user id).

MongoDB collections are modelled as Lean lists of records; `find_one` with a
filter becomes `List.find?` with the corresponding predicate, `delete_one`
becomes `List.eraseP`, `update_one` with a `set` document becomes a `List.map`
that rewrites the matching record.  Document ids (`ObjectId`) are modelled as
strings compared for equality; the `ObjectId.is_valid` format precheck of the
routes is outside the model (identifiers are taken to be well formed, format
validation being schema-level per the spec, section 1).
-/

namespace TodoSpec

/-- HTTP status codes produced by the embedded routes. -/
inductive HStatus where
  | ok200
  | created201
  | noContent204
  | badRequest400
  | unauthorized401
  | forbidden403
  | notFound404
  deriving DecidableEq, Repr

/-- Outcome of a route call: the HTTP status of the decorator on success with
the response payload, or the HTTP status of the raised `HTTPException`. -/
inductive RouteResult (α : Type) where
  | success (code : HStatus) (value : α)
  | failure (code : HStatus)
  deriving DecidableEq, Repr

/-- True exactly on the failure outcome carrying the given status. -/
def RouteResult.isFailure {α : Type} (r : RouteResult α) (c : HStatus) : Prop :=
  r = .failure c

/-! ## Credential Manager (`backend/core/security.py`)

`passlib` with the `pbkdf2_sha256` scheme stores, inside the hash string, the
salt together with the PBKDF2 digest of the password under that salt;
`CryptContext.verify` re-derives the digest from the candidate password and
the stored salt and compares.  The external digest primitive is taken as a
parameter `kdf`; the fresh salt that `CryptContext.hash` draws is passed
explicitly. -/

/-- The parsed form of a `passlib` pbkdf2_sha256 hash string: salt and
digest. -/
structure HashString where
  salt : Nat
  digest : Nat
  deriving DecidableEq, Repr

/-- `get_password_hash` from `backend/core/security.py`: hash a password
using pbkdf2_sha256 (digest primitive `kdf`, fresh salt `salt`). -/
def get_password_hash (kdf : Nat → String → Nat) (salt : Nat)
    (password : String) : HashString :=
  { salt := salt, digest := kdf salt password }

/-- `verify_password` from `backend/core/security.py`: verify a plain
password against its stored hash.  Total: returns a boolean for every input
and never raises. -/
def verify_password (kdf : Nat → String → Nat) (plain : String)
    (hashed : HashString) : Bool :=
  kdf hashed.salt plain == hashed.digest

/-! ## Token Service (`backend/core/security.py` over `python-jose`)

A JWT is either a structurally malformed string or a signed claim set.  The
HMAC-SHA256 primitive of `jose` is taken as a parameter `mac`; `jwt.decode`
rejects a wrong signature and an expired `exp` claim (expired when
`exp < now`, the check `python-jose` performs with zero leeway), collapsing
every failure into the single `JWTError` that `verify_token` catches. -/

/-- JWT claim set as built by `create_access_token`: optional subject,
expiry (unix seconds), token type. -/
structure Claims where
  sub : Option String
  exp : Nat
  typ : String
  deriving DecidableEq, Repr

/-- A bearer token as seen by `jose`: malformed input, or a claim set
carrying a signature value. -/
inductive Token where
  | malformed (raw : String)
  | signed (claims : Claims) (sig : Nat)
  deriving DecidableEq, Repr

/-- The single failure `jose` surfaces to `verify_token`. -/
inductive JWTError where
  | invalid
  deriving DecidableEq, Repr

/-- Model of `jose.jwt.encode`: attach the keyed signature to the claims. -/
def jwt_encode (mac : Nat → Claims → Nat) (key : Nat) (c : Claims) : Token :=
  .signed c (mac key c)

/-- Model of `jose.jwt.decode` at current time `now`: reject malformed
input, a signature mismatch, and an expired `exp` claim. -/
def jwt_decode (mac : Nat → Claims → Nat) (key : Nat) (now : Nat) :
    Token → Except JWTError Claims
  | .malformed _ => .error .invalid
  | .signed c sig =>
    if sig ≠ mac key c then .error .invalid
    else if c.exp < now then .error .invalid
    else .ok c

/-- `ACCESS_TOKEN_EXPIRE_MINUTES` default from `backend/core/security.py`. -/
def ACCESS_TOKEN_EXPIRE_MINUTES : Nat := 30

/-- `create_access_token` from `backend/core/security.py`: copy the caller
data (its only claim being an optional subject), set `exp` to now plus the
given delta in seconds (default thirty minutes) and the type claim, and
sign. -/
def create_access_token (mac : Nat → Claims → Nat) (key : Nat) (now : Nat)
    (sub : Option String) (expires_delta : Option Nat) : Token :=
  let expire : Nat :=
    match expires_delta with
    | some d => now + d
    | none => now + ACCESS_TOKEN_EXPIRE_MINUTES * 60
  jwt_encode mac key { sub := sub, exp := expire, typ := "access" }

/-- `verify_token` from `backend/core/security.py`: decode, return the
subject claim if present, and map every `JWTError` and a missing subject to
`none`.  Total: never raises. -/
def verify_token (mac : Nat → Claims → Nat) (key : Nat) (now : Nat)
    (t : Token) : Option String :=
  match jwt_decode mac key now t with
  | .error _ => none
  | .ok c => c.sub

/-! ## Identity Resolver

`backend/api/deps.py` (`get_current_user`): verify the bearer token, load the
user via `UserCRUD.get_by_id` (a `find_one` on the `_id` field), reject a
missing user with 401 and an inactive user with 400.

`app/api/v1/auth.py` (`get_current_user`): verify the token, load the user by
id, reject only a failed verification or a missing user, each with 401; the
record is returned as is, with no check of its `is_active` flag. -/

/-- A document of the `users` collection (`backend/models/user.py` fields as
written by registration: id, display name, email, password hash, active flag,
creation timestamp). -/
structure UserDoc where
  id : String
  name : String
  email : String
  hashed_password : HashString
  is_active : Bool
  created_at : Nat
  updated_at : Nat
  deriving DecidableEq, Repr

/-- `UserCRUD.get_by_id` from `backend/crud/user.py`: `find_one` on `_id`. -/
def users_get_by_id (users : List UserDoc) (uid : String) : Option UserDoc :=
  users.find? (fun u => u.id == uid)

/-- `UserCRUD.get_by_email` from `backend/crud/user.py`: `find_one` on
`email`. -/
def users_get_by_email (users : List UserDoc) (email : String) :
    Option UserDoc :=
  users.find? (fun u => u.email == email)

/-- `get_current_user` from `backend/api/deps.py`: 401 when token
verification yields no subject, 401 when no user record matches the subject,
400 when the user is inactive, otherwise the user.  Read-only. -/
def deps_get_current_user (mac : Nat → Claims → Nat) (key : Nat) (now : Nat)
    (users : List UserDoc) (token : Token) : Except HStatus UserDoc :=
  match verify_token mac key now token with
  | none => .error .unauthorized401
  | some uid =>
    match users_get_by_id users uid with
    | none => .error .unauthorized401
    | some u =>
      if !u.is_active then .error .badRequest400
      else .ok u

/-- `get_current_user` from `app/api/v1/auth.py`: 401 when token
verification yields no subject or no user record matches; the found user is
returned without any inspection of `is_active`.  (The `app` variant imports
`verify_token` from its own `core.security`; the token-service behaviour is
the one embedded above from `backend/core/security.py`.) -/
def app_get_current_user (mac : Nat → Claims → Nat) (key : Nat) (now : Nat)
    (users : List UserDoc) (token : Token) : Except HStatus UserDoc :=
  match verify_token mac key now token with
  | none => .error .unauthorized401
  | some uid =>
    match users_get_by_id users uid with
    | none => .error .unauthorized401
    | some u => .ok u

/-! ## Manual-CRUD variant: tasks and labels (`api/v1`, `crud/`, `models/`)

Routes fetch the document by id alone (`TaskCRUD.get_by_id`,
`LabelCRUD.get_by_id`), raise 404 when the lookup fails, then compare the
stored `user_id` with the acting user and raise 403 on mismatch. -/

/-- `TaskStatus` from `backend/models/task.py` (the model class the manual
CRUD variant instantiates): pending, in_progress, completed. -/
inductive TaskStatus where
  | pending
  | in_progress
  | completed
  deriving DecidableEq, Repr

/-- A document of the `tasks` collection in the manual CRUD variant
(`Task.to_dict` from `backend/models/task.py`). -/
structure Task where
  id : String
  title : String
  description : Option String
  status : TaskStatus
  user_id : String
  label_ids : List String
  due_date : Option Nat
  created_at : Nat
  updated_at : Nat
  deriving DecidableEq, Repr

/-- A document of the `labels` collection (fields per `schemas/label.py`
`LabelInDB` and the inserts of `backend/api/v1/labels.py` and
`backend/api/v1/auth.py`). -/
structure LabelDoc where
  id : String
  user_id : String
  name : String
  color : String
  created_at : Nat
  deriving DecidableEq, Repr

/-- `TaskCreate` from `schemas/task.py`. -/
structure TaskCreate where
  title : String
  description : Option String
  label_ids : Option (List String)
  due_date : Option Nat
  deriving DecidableEq, Repr

/-- `TaskUpdate` from `schemas/task.py`: every field optional; fields left
`None` are dropped from the update document. -/
structure TaskUpdate where
  title : Option String
  description : Option String
  status : Option TaskStatus
  label_ids : Option (List String)
  due_date : Option Nat
  deriving DecidableEq, Repr

/-- True when the update document `update_data` of `TaskCRUD.update` is
empty: every optional field is `None`. -/
def TaskUpdate.isEmpty (td : TaskUpdate) : Bool :=
  td.title.isNone && td.description.isNone && td.status.isNone &&
    td.label_ids.isNone && td.due_date.isNone

/-- `LabelCreate` from `schemas/label.py`. -/
structure LabelCreate where
  name : String
  color : String
  deriving DecidableEq, Repr

/-- `LabelUpdate` from `schemas/label.py`. -/
structure LabelUpdate where
  name : Option String
  color : Option String
  deriving DecidableEq, Repr

/-- `TaskCRUD.get_by_id` from `crud/task.py`: `find_one` on `_id` alone, no
owner scoping. -/
def task_crud_get_by_id (tasks : List Task) (task_id : String) :
    Option Task :=
  tasks.find? (fun t => t.id == task_id)

/-- `TaskCRUD.get_by_user` from `crud/task.py`: `find` on `user_id`, with an
optional status filter (the route passes the raw query string; we model the
already-decoded enum value). -/
def task_crud_get_by_user (tasks : List Task) (uid : String)
    (status_filter : Option TaskStatus) : List Task :=
  tasks.filter (fun t =>
    t.user_id == uid &&
      (match status_filter with
       | none => true
       | some s => t.status == s))

/-- `TaskCRUD.delete` from `crud/task.py`: `delete_one` on `_id`; reports
the deleted count. -/
def task_crud_delete (tasks : List Task) (task_id : String) :
    List Task × Nat :=
  match tasks.find? (fun t => t.id == task_id) with
  | none => (tasks, 0)
  | some _ => (tasks.eraseP (fun t => t.id == task_id), 1)

/-- The `set` document that `TaskCRUD.update` applies: each field of the
update present in the request overwrites the stored field, and `updated_at`
is refreshed. -/
def applyTaskUpdate (td : TaskUpdate) (now : Nat) (t : Task) : Task :=
  { t with
    title := td.title.getD t.title
    description :=
      match td.description with
      | none => t.description
      | some d => some d
    status := td.status.getD t.status
    label_ids := td.label_ids.getD t.label_ids
    due_date :=
      match td.due_date with
      | none => t.due_date
      | some d => some d
    updated_at := now }

/-- `TaskCRUD.update` from `crud/task.py`: with an empty update document,
re-read the task; otherwise `update_one` on `_id` with the `set` document
(the refreshed `updated_at` makes a matched document count as modified) and
re-read. -/
def task_crud_update (tasks : List Task) (task_id : String)
    (td : TaskUpdate) (now : Nat) : List Task × Option Task :=
  if td.isEmpty then
    (tasks, task_crud_get_by_id tasks task_id)
  else
    match task_crud_get_by_id tasks task_id with
    | none => (tasks, none)
    | some _ =>
      let tasks' := tasks.map (fun t =>
        if t.id == task_id then applyTaskUpdate td now t else t)
      (tasks', task_crud_get_by_id tasks' task_id)

/-- `create_task` route from `api/v1/tasks.py`: `TaskCRUD.create` builds the
model object (status defaulting to pending), inserts it, and the route
answers 201 with the task. -/
def api_create_task (tasks : List Task) (td : TaskCreate) (u : UserDoc)
    (newId : String) (now : Nat) : RouteResult Task × List Task :=
  let t : Task :=
    { id := newId, title := td.title, description := td.description
      status := .pending, user_id := u.id
      label_ids := td.label_ids.getD [], due_date := td.due_date
      created_at := now, updated_at := now }
  (.success .created201 t, tasks ++ [t])

/-- `get_tasks` route from `api/v1/tasks.py`: all tasks of the current user
(modulo the sort by creation time, which permutes the response). -/
def api_get_tasks (tasks : List Task) (u : UserDoc)
    (status_filter : Option TaskStatus) : RouteResult (List Task) :=
  .success .ok200 (task_crud_get_by_user tasks u.id status_filter)

/-- `get_task` route from `api/v1/tasks.py`: 404 when the id resolves to no
task, 403 when the task belongs to another user, 200 with the task
otherwise. -/
def api_get_task (tasks : List Task) (task_id : String) (u : UserDoc) :
    RouteResult Task :=
  match task_crud_get_by_id tasks task_id with
  | none => .failure .notFound404
  | some t =>
    if t.user_id ≠ u.id then .failure .forbidden403
    else .success .ok200 t

/-- `update_task` route from `api/v1/tasks.py`: 404 when the id resolves to
no task, 403 when the task belongs to another user, then `TaskCRUD.update`
(400 when it reports no task). -/
def api_update_task (tasks : List Task) (task_id : String) (td : TaskUpdate)
    (u : UserDoc) (now : Nat) : RouteResult Task × List Task :=
  match task_crud_get_by_id tasks task_id with
  | none => (.failure .notFound404, tasks)
  | some t =>
    if t.user_id ≠ u.id then (.failure .forbidden403, tasks)
    else
      match task_crud_update tasks task_id td now with
      | (tasks', none) => (.failure .badRequest400, tasks')
      | (tasks', some t') => (.success .ok200 t', tasks')

/-- `delete_task` route from `api/v1/tasks.py`: 404 when the id resolves to
no task, 403 when the task belongs to another user, then `TaskCRUD.delete`
(400 when it deleted nothing). -/
def api_delete_task (tasks : List Task) (task_id : String) (u : UserDoc) :
    RouteResult Unit × List Task :=
  match task_crud_get_by_id tasks task_id with
  | none => (.failure .notFound404, tasks)
  | some t =>
    if t.user_id ≠ u.id then (.failure .forbidden403, tasks)
    else
      match task_crud_delete tasks task_id with
      | (tasks', n) =>
        if n > 0 then (.success .ok200 (), tasks')
        else (.failure .badRequest400, tasks')

/-- Modelled from the spec: `LabelCRUD.get_by_id`.  The file `crud/label.py`
of the manual CRUD variant is absent from the snapshot (only its callers in
`api/v1/labels.py` are present); per spec section 4.5 the persistence
adapter exposes `find_by_id`, a lookup by opaque identifier. -/
def label_crud_get_by_id (labels : List LabelDoc) (label_id : String) :
    Option LabelDoc :=
  labels.find? (fun l => l.id == label_id)

/-- Modelled from the spec: `LabelCRUD.delete`.  Per spec section 4.5 the
adapter exposes `delete_by_id`; the route treats a zero deleted count as
failure. -/
def label_crud_delete (labels : List LabelDoc) (label_id : String) :
    List LabelDoc × Nat :=
  match labels.find? (fun l => l.id == label_id) with
  | none => (labels, 0)
  | some _ => (labels.eraseP (fun l => l.id == label_id), 1)

/-- Modelled from the spec: `LabelCRUD.is_name_taken`.  Per spec section 3 a
label name is unique per user, so the check looks for another label of the
same user bearing the name, excluding the label being renamed. -/
def label_crud_is_name_taken (labels : List LabelDoc) (name uid : String)
    (excludeId : Option String) : Bool :=
  (labels.find? (fun l =>
    l.name == name && l.user_id == uid &&
      (match excludeId with
       | none => true
       | some e => l.id != e))).isSome

/-- Modelled from the spec: `LabelCRUD.create`, an insert of the new label
document owned by the acting user (spec section 4.5). -/
def label_crud_create (labels : List LabelDoc) (ld : LabelCreate)
    (uid newId : String) (now : Nat) : LabelDoc × List LabelDoc :=
  let l : LabelDoc :=
    { id := newId, user_id := uid, name := ld.name, color := ld.color
      created_at := now }
  (l, labels ++ [l])

/-- `create_label` route from `api/v1/labels.py`: 400 when the name is
already taken by a label of the current user, otherwise insert and answer
201. -/
def api_create_label (labels : List LabelDoc) (ld : LabelCreate)
    (u : UserDoc) (newId : String) (now : Nat) :
    RouteResult LabelDoc × List LabelDoc :=
  if label_crud_is_name_taken labels ld.name u.id none then
    (.failure .badRequest400, labels)
  else
    match label_crud_create labels ld u.id newId now with
    | (l, labels') => (.success .created201 l, labels')

/-- `get_label` route from `api/v1/labels.py`: 404 when the id resolves to
no label, 403 when the label belongs to another user, 200 otherwise. -/
def api_get_label (labels : List LabelDoc) (label_id : String)
    (u : UserDoc) : RouteResult LabelDoc :=
  match label_crud_get_by_id labels label_id with
  | none => .failure .notFound404
  | some l =>
    if l.user_id ≠ u.id then .failure .forbidden403
    else .success .ok200 l

/-- The `set` document of `LabelCRUD.update` (modelled from the spec,
section 4.5 `update_fields`): present fields overwrite stored ones. -/
def applyLabelUpdate (ld : LabelUpdate) (l : LabelDoc) : LabelDoc :=
  { l with name := ld.name.getD l.name, color := ld.color.getD l.color }

/-- `update_label` route from `api/v1/labels.py`: 404 when the id resolves
to no label, 403 when the label belongs to another user, 400 when the new
name is taken by another label of the user, otherwise apply the update. -/
def api_update_label (labels : List LabelDoc) (label_id : String)
    (ld : LabelUpdate) (u : UserDoc) : RouteResult LabelDoc × List LabelDoc :=
  match label_crud_get_by_id labels label_id with
  | none => (.failure .notFound404, labels)
  | some l =>
    if l.user_id ≠ u.id then (.failure .forbidden403, labels)
    else
      if (match ld.name with
          | none => false
          | some n => n != l.name &&
              label_crud_is_name_taken labels n u.id (some label_id)) then
        (.failure .badRequest400, labels)
      else
        let labels' := labels.map (fun x =>
          if x.id == label_id then applyLabelUpdate ld x else x)
        match label_crud_get_by_id labels' label_id with
        | none => (.failure .badRequest400, labels')
        | some l' => (.success .ok200 l', labels')

/-- `delete_label` route from `api/v1/labels.py`: 404 when the id resolves
to no label, 403 when the label belongs to another user, then
`LabelCRUD.delete` (400 when it deleted nothing). -/
def api_delete_label (labels : List LabelDoc) (label_id : String)
    (u : UserDoc) : RouteResult Unit × List LabelDoc :=
  match label_crud_get_by_id labels label_id with
  | none => (.failure .notFound404, labels)
  | some l =>
    if l.user_id ≠ u.id then (.failure .forbidden403, labels)
    else
      match label_crud_delete labels label_id with
      | (labels', n) =>
        if n > 0 then (.success .ok200 (), labels')
        else (.failure .badRequest400, labels')

/-! ## Route-embedded variant: tasks (`backend/api/v1/tasks.py`)

Every per-id lookup and the delete use a compound filter containing both
`_id` and `user_id`, so a document owned by another user is indistinguishable
from an absent one: the routes answer 404 in both cases.

The `models.task` module these routes import (with `Priority` and an
incomplete/complete `TaskStatus`, re-exported by `backend/models/__init__.py`
as `TaskModel, TaskStatus, Priority`) is absent from the snapshot; the file
`backend/models/task.py` present instead carries the pending/in_progress/
completed enumeration used by the manual CRUD variant.  The two enumerations
below for this variant are therefore modelled from the spec. -/

/-- Modelled from the spec: the `Priority` enumeration imported by
`backend/api/v1/tasks.py` from `models.task`, whose defining file is absent
from the snapshot; spec section 3 gives its members as low, medium, high. -/
inductive Priority where
  | low
  | medium
  | high
  deriving DecidableEq, Repr

/-- Modelled from the spec: the `TaskStatus` enumeration imported by
`backend/api/v1/tasks.py` from `models.task`, whose defining file is absent
from the snapshot; spec section 3 gives its members in this variant as
incomplete, complete. -/
inductive BTaskStatus where
  | incomplete
  | complete
  deriving DecidableEq, Repr

/-- A document of the `tasks` collection in the route-embedded variant (the
dictionary inserted by `create_task` in `backend/api/v1/tasks.py`). -/
structure BTask where
  id : String
  user_id : String
  title : String
  description : Option String
  priority : Priority
  deadline : Option Nat
  status : BTaskStatus
  labels : List String
  created_at : Nat
  updated_at : Nat
  deriving DecidableEq, Repr

/-- `TaskCreate` of the route-embedded variant (`backend/schemas/task.py`). -/
structure BTaskCreate where
  title : String
  description : Option String
  priority : Priority
  deadline : Option Nat
  labels : List String
  deriving DecidableEq, Repr

/-- `TaskUpdate` of the route-embedded variant (`backend/schemas/task.py`):
every field optional. -/
structure BTaskUpdate where
  title : Option String
  description : Option String
  priority : Option Priority
  deadline : Option Nat
  status : Option BTaskStatus
  labels : Option (List String)
  deriving DecidableEq, Repr

/-- True when `update_task` of `backend/api/v1/tasks.py` builds an empty
update document: every optional field of the request is `None`. -/
def BTaskUpdate.isEmpty (td : BTaskUpdate) : Bool :=
  td.title.isNone && td.description.isNone && td.priority.isNone &&
    td.deadline.isNone && td.status.isNone && td.labels.isNone

/-- The label-validation loop of `create_task` and `update_task` in
`backend/api/v1/tasks.py`: every referenced label must exist and belong to
the acting user (compound `find_one` on `_id` and `user_id`). -/
def backendLabelsValid (labels : List LabelDoc) (lids : List String)
    (uid : String) : Bool :=
  lids.all (fun lid =>
    (labels.find? (fun l => l.id == lid && l.user_id == uid)).isSome)

/-- `create_task` route from `backend/api/v1/tasks.py`: validate the
referenced labels (404 on the first one not owned by the user), then insert
the task document with `user_id` set to the acting user and `status` set to
incomplete, answering 201. -/
def backend_create_task (labels : List LabelDoc) (tasks : List BTask)
    (td : BTaskCreate) (uid : String) (newId : String) (now : Nat) :
    RouteResult BTask × List BTask :=
  if backendLabelsValid labels td.labels uid then
    let t : BTask :=
      { id := newId, user_id := uid, title := td.title
        description := td.description, priority := td.priority
        deadline := td.deadline, status := .incomplete, labels := td.labels
        created_at := now, updated_at := now }
    (.success .created201 t, tasks ++ [t])
  else
    (.failure .notFound404, tasks)

/-- The optional filters of `get_tasks` in `backend/api/v1/tasks.py`; the
route always adds `user_id` to the query. -/
structure BTasksQuery where
  status : Option BTaskStatus
  priority : Option Priority
  label_id : Option String
  skip : Nat
  limit : Nat
  deriving DecidableEq, Repr

/-- The Mongo query document `get_tasks` builds: owner scoping plus the
optional status, priority and label filters. -/
def bTaskMatches (q : BTasksQuery) (uid : String) (t : BTask) : Bool :=
  t.user_id == uid &&
    (match q.status with
     | none => true
     | some s => t.status == s) &&
    (match q.priority with
     | none => true
     | some p => t.priority == p) &&
    (match q.label_id with
     | none => true
     | some lid => t.labels.contains lid)

/-- Insertion step of the sort on `created_at` descending that `get_tasks`
requests from the store. -/
def insertByCreatedDesc (t : BTask) : List BTask → List BTask
  | [] => [t]
  | x :: xs =>
    if x.created_at ≤ t.created_at then t :: x :: xs
    else x :: insertByCreatedDesc t xs

/-- The sort on `created_at` descending that `get_tasks` requests from the
store. -/
def sortByCreatedDesc : List BTask → List BTask
  | [] => []
  | x :: xs => insertByCreatedDesc x (sortByCreatedDesc xs)

/-- `get_tasks` route from `backend/api/v1/tasks.py`: the user-scoped,
filtered, sorted page of tasks together with the total count of matching
documents. -/
def backend_get_tasks (tasks : List BTask) (q : BTasksQuery) (uid : String) :
    RouteResult (List BTask × Nat) :=
  let matched := tasks.filter (bTaskMatches q uid)
  .success .ok200
    (((sortByCreatedDesc matched).drop q.skip).take q.limit, matched.length)

/-- `get_task` route from `backend/api/v1/tasks.py`: compound `find_one` on
`_id` and `user_id`; 404 when nothing matches (whether the task is absent or
owned by another user). -/
def backend_get_task (tasks : List BTask) (task_id : String) (uid : String) :
    RouteResult BTask :=
  match tasks.find? (fun t => t.id == task_id && t.user_id == uid) with
  | none => .failure .notFound404
  | some t => .success .ok200 t

/-- The `set` document `update_task` of `backend/api/v1/tasks.py` applies:
present fields overwrite stored ones and `updated_at` is refreshed. -/
def applyBTaskUpdate (td : BTaskUpdate) (now : Nat) (t : BTask) : BTask :=
  { t with
    title := td.title.getD t.title
    description :=
      match td.description with
      | none => t.description
      | some d => some d
    priority := td.priority.getD t.priority
    deadline :=
      match td.deadline with
      | none => t.deadline
      | some d => some d
    status := td.status.getD t.status
    labels := td.labels.getD t.labels
    updated_at := now }

/-- `update_task` route from `backend/api/v1/tasks.py`: compound existence
and ownership lookup (404), label validation when labels are supplied (404),
empty-update rejection (400), then `update_one` filtered on `_id` and a
re-read of the task. -/
def backend_update_task (labels : List LabelDoc) (tasks : List BTask)
    (task_id : String) (td : BTaskUpdate) (uid : String) (now : Nat) :
    RouteResult BTask × List BTask :=
  match tasks.find? (fun t => t.id == task_id && t.user_id == uid) with
  | none => (.failure .notFound404, tasks)
  | some _ =>
    if !(match td.labels with
         | none => true
         | some lids => backendLabelsValid labels lids uid) then
      (.failure .notFound404, tasks)
    else if td.isEmpty then
      (.failure .badRequest400, tasks)
    else
      let tasks' := tasks.map (fun t =>
        if t.id == task_id then applyBTaskUpdate td now t else t)
      match tasks'.find? (fun t => t.id == task_id) with
      | none => (.failure .notFound404, tasks')
      | some t' => (.success .ok200 t', tasks')

/-- `delete_task` route from `backend/api/v1/tasks.py`: a single
`delete_one` with the compound filter on `_id` and `user_id`; a zero deleted
count (absent task or another owner alike) answers 404, otherwise 204. -/
def backend_delete_task (tasks : List BTask) (task_id : String)
    (uid : String) : RouteResult Unit × List BTask :=
  match tasks.find? (fun t => t.id == task_id && t.user_id == uid) with
  | none => (.failure .notFound404, tasks)
  | some _ =>
    (.success .noContent204 (),
      tasks.eraseP (fun t => t.id == task_id && t.user_id == uid))

/-! ## Route-embedded variant: labels and registration
(`backend/api/v1/labels.py`, `backend/api/v1/auth.py`) -/

/-- `create_label` route from `backend/api/v1/labels.py`: 400 when a label
of the same user already bears the name, otherwise insert and answer 201. -/
def backend_create_label (labels : List LabelDoc) (ld : LabelCreate)
    (uid : String) (newId : String) (now : Nat) :
    RouteResult LabelDoc × List LabelDoc :=
  match labels.find? (fun l => l.user_id == uid && l.name == ld.name) with
  | some _ => (.failure .badRequest400, labels)
  | none =>
    let l : LabelDoc :=
      { id := newId, user_id := uid, name := ld.name, color := ld.color
        created_at := now }
    (.success .created201 l, labels ++ [l])

/-- `delete_label` route from `backend/api/v1/labels.py`: `delete_one` with
the compound filter on `_id` and `user_id` (404 on a zero deleted count),
then `update_many` pulling the label id from the `labels` array of every
task of the user; no other task field is touched. -/
def backend_delete_label (labels : List LabelDoc) (tasks : List BTask)
    (label_id : String) (uid : String) :
    RouteResult Unit × List LabelDoc × List BTask :=
  match labels.find? (fun l => l.id == label_id && l.user_id == uid) with
  | none => (.failure .notFound404, labels, tasks)
  | some _ =>
    let labels' := labels.eraseP (fun l => l.id == label_id && l.user_id == uid)
    let tasks' := tasks.map (fun t =>
      if t.user_id == uid then
        { t with labels := t.labels.filter (fun lid => lid != label_id) }
      else t)
    (.success .noContent204 (), labels', tasks')

/-- `create_default_labels` from `backend/api/v1/auth.py`: insert the
Personal and Work labels for the user, but only when the user owns no label
at all (the `find_one` duplicate check). -/
def create_default_labels (labels : List LabelDoc) (uid : String)
    (id1 id2 : String) (now : Nat) : List LabelDoc :=
  match labels.find? (fun l => l.user_id == uid) with
  | some _ => labels
  | none =>
    labels ++
      [{ id := id1, user_id := uid, name := "Personal", color := "#3B82F6"
         created_at := now },
       { id := id2, user_id := uid, name := "Work", color := "#EF4444"
         created_at := now }]

/-- `register` route from `backend/api/v1/auth.py`: 400 when the email is
taken; otherwise insert the user document with `is_active` true, seed the
default labels, and answer 201 with a bearer token whose subject is the
email. -/
def backend_register (mac : Nat → Claims → Nat) (key : Nat)
    (kdf : Nat → String → Nat) (salt : Nat)
    (users : List UserDoc) (labels : List LabelDoc)
    (email name password : String) (newUid lid1 lid2 : String) (now : Nat) :
    RouteResult (Token × UserDoc) × List UserDoc × List LabelDoc :=
  match users.find? (fun u => u.email == email) with
  | some _ => (.failure .badRequest400, users, labels)
  | none =>
    let u : UserDoc :=
      { id := newUid, name := name, email := email
        hashed_password := get_password_hash kdf salt password
        is_active := true, created_at := now, updated_at := now }
    let labels' := create_default_labels labels newUid lid1 lid2 now
    (.success .created201
        (create_access_token mac key now (some email) none, u),
      users ++ [u], labels')

/-! ## ODM-style variant: labels (`app/crud/label.py`,
`app/api/v1/labels.py`) -/

/-- `get_label_usage_count` from `app/crud/label.py`: count of the tasks of
the user whose `label_ids` array contains the label.  (App task documents
carry the same `user_id` and `label_ids` fields as the manual CRUD variant;
the `Task` record above is reused for them.) -/
def app_get_label_usage_count (tasks : List Task) (label_id uid : String) :
    Nat :=
  (tasks.filter (fun t =>
    t.user_id == uid && t.label_ids.contains label_id)).length

/-- `delete_label` from `app/crud/label.py`: `delete_one` with the compound
filter on `_id` and `user_id`; true iff something was deleted. -/
def app_crud_delete_label (labels : List LabelDoc) (label_id uid : String) :
    List LabelDoc × Bool :=
  match labels.find? (fun l => l.id == label_id && l.user_id == uid) with
  | none => (labels, false)
  | some _ =>
    (labels.eraseP (fun l => l.id == label_id && l.user_id == uid), true)

/-- `delete_label_endpoint` from `app/api/v1/labels.py`: 400 when at least
one task of the user references the label (the usage-count guard), 404 when
the crud delete removes nothing, otherwise success; tasks are never
touched. -/
def app_delete_label_endpoint (labels : List LabelDoc) (tasks : List Task)
    (label_id : String) (u : UserDoc) :
    RouteResult Unit × List LabelDoc × List Task :=
  let usage := app_get_label_usage_count tasks label_id u.id
  if usage > 0 then
    (.failure .badRequest400, labels, tasks)
  else
    match app_crud_delete_label labels label_id u.id with
    | (labels', true) => (.success .ok200 (), labels', tasks)
    | (_, false) => (.failure .notFound404, labels, tasks)

/-- `get_label_by_name` from `app/crud/label.py`: `find_one` on `name` and
`user_id`. -/
def app_get_label_by_name (labels : List LabelDoc) (name uid : String) :
    Option LabelDoc :=
  labels.find? (fun l => l.name == name && l.user_id == uid)

/-- `create_label_endpoint` from `app/api/v1/labels.py`: 400 when a label of
the same name already exists for the user, otherwise insert via the crud
`create_label` and answer with the label. -/
def app_create_label_endpoint (labels : List LabelDoc) (ld : LabelCreate)
    (u : UserDoc) (newId : String) (now : Nat) :
    RouteResult LabelDoc × List LabelDoc :=
  match app_get_label_by_name labels ld.name u.id with
  | some _ => (.failure .badRequest400, labels)
  | none =>
    let l : LabelDoc :=
      { id := newId, user_id := u.id, name := ld.name, color := ld.color
        created_at := now }
    (.success .ok200 l, labels ++ [l])

/-! ## Claims -/

/-- C5: for every password P, `verify_password` accepts P against
`get_password_hash` of P; and for a candidate Q whose digest under the
stored salt differs from that of P (the formal rendering of "distinct
passwords, with overwhelming probability", i.e. no digest collision),
`verify_password` returns false rather than raising — both functions are
total. -/
theorem C5_password_hash_verify (kdf : Nat → String → Nat) (salt : Nat)
    (P Q : String) (hcoll : kdf salt Q ≠ kdf salt P) :
    verify_password kdf P (get_password_hash kdf salt P) = true ∧
    verify_password kdf Q (get_password_hash kdf salt P) = false := by
  refine ⟨?_, ?_⟩
  · simp [verify_password, get_password_hash]
  · simp [verify_password, get_password_hash, hcoll]

/-- Witness for C5 at a concrete digest function, salt and password pair. -/
theorem C5_password_hash_verify_witness :
    (fun _ p => String.length p) 7 "hunter2x" ≠
      (fun _ p => String.length p) 7 "hunter2" ∧
    (verify_password (fun _ p => String.length p) "hunter2"
        (get_password_hash (fun _ p => String.length p) 7 "hunter2") = true ∧
     verify_password (fun _ p => String.length p) "hunter2x"
        (get_password_hash (fun _ p => String.length p) 7 "hunter2") = false) :=
  ⟨by decide,
   C5_password_hash_verify (fun _ p => String.length p) 7 "hunter2" "hunter2x"
     (by decide)⟩

/-- C4: token verification is total and never raises; on a signed token it
returns the embedded subject exactly when the signature matches and the
token has not expired, and `none` in every other case (tampered signature,
expired, malformed input, missing subject); a token issued by
`create_access_token` with positive ttl verifies to the original subject at
issuance time and to `none` once the ttl has elapsed. -/
theorem C4_verify_token_contract (mac : Nat → Claims → Nat) (key : Nat)
    (now : Nat) :
    (∀ c sig now', verify_token mac key now' (.signed c sig) =
        if sig = mac key c ∧ ¬ c.exp < now' then c.sub else none) ∧
    (∀ raw now', verify_token mac key now' (.malformed raw) = none) ∧
    (∀ c sig now', c.sub = none →
        verify_token mac key now' (.signed c sig) = none) ∧
    (∀ sub d, 0 < d →
        verify_token mac key now
          (create_access_token mac key now (some sub) (some d)) = some sub) ∧
    (∀ sub d now', now + d < now' →
        verify_token mac key now'
          (create_access_token mac key now (some sub) (some d)) = none) := by
  have hchar : ∀ c sig now', verify_token mac key now' (.signed c sig) =
      if sig = mac key c ∧ ¬ c.exp < now' then c.sub else none := by
    intro c sig now'
    by_cases h1 : sig = mac key c
    · by_cases h2 : c.exp < now'
      · simp [verify_token, jwt_decode, h1, h2]
      · simp [verify_token, jwt_decode, h1, h2]
    · simp [verify_token, jwt_decode, h1]
  refine ⟨hchar, ?_, ?_, ?_, ?_⟩
  · intro raw now'
    simp [verify_token, jwt_decode]
  · intro c sig now' hsub
    rw [hchar]
    simp [hsub]
  · intro sub d _
    rw [create_access_token, jwt_encode, hchar]
    simp
  · intro sub d now' hlate
    rw [create_access_token, jwt_encode, hchar]
    simp only [ite_eq_right_iff]
    intro h
    exact absurd hlate (by simpa using h.2)

/-- Witness for C4 at a concrete signature function, key, clock, subject and
ttl: the token verifies to its subject at issuance time, is rejected after
the ttl has elapsed, and malformed input yields `none`. -/
theorem C4_verify_token_contract_witness :
    0 < 60 ∧ 100 + 60 < 200 ∧
    verify_token (fun k c => k + c.exp) 5 100
      (create_access_token (fun k c => k + c.exp) 5 100 (some "u1")
        (some 60)) = some "u1" ∧
    verify_token (fun k c => k + c.exp) 5 200
      (create_access_token (fun k c => k + c.exp) 5 100 (some "u1")
        (some 60)) = none ∧
    verify_token (fun k c => k + c.exp) 5 100 (.malformed "not-a-jwt") =
      none :=
  ⟨by decide, by decide,
   (C4_verify_token_contract (fun k c => k + c.exp) 5 100).2.2.2.1 "u1" 60
     (by decide),
   (C4_verify_token_contract (fun k c => k + c.exp) 5 100).2.2.2.2 "u1" 60
     200 (by decide),
   (C4_verify_token_contract (fun k c => k + c.exp) 5 100).2.1 "not-a-jwt"
     100⟩

/-- C6 (amended): identity resolution in the `backend/api/deps.py` variant
signals 401 when token verification yields no subject or no user record
matches the subject, signals the distinct 400 outcome when the user is found
but inactive, and otherwise returns the stored user record (the function is
read-only); the `app/api/v1/auth.py` variant signals 401 in the same first
two cases but performs no active-flag check and returns the found user even
when inactive. -/
theorem C6_amended_identity_resolution (mac : Nat → Claims → Nat) (key : Nat)
    (now : Nat) (users : List UserDoc) (token : Token) :
    (verify_token mac key now token = none →
        deps_get_current_user mac key now users token =
          .error .unauthorized401 ∧
        app_get_current_user mac key now users token =
          .error .unauthorized401) ∧
    (∀ uid, verify_token mac key now token = some uid →
        users_get_by_id users uid = none →
        deps_get_current_user mac key now users token =
          .error .unauthorized401 ∧
        app_get_current_user mac key now users token =
          .error .unauthorized401) ∧
    (∀ uid u, verify_token mac key now token = some uid →
        users_get_by_id users uid = some u →
        (u.is_active = false →
          deps_get_current_user mac key now users token =
            .error .badRequest400) ∧
        (u.is_active = true →
          deps_get_current_user mac key now users token = .ok u) ∧
        app_get_current_user mac key now users token = .ok u ∧
        u ∈ users) := by
  refine ⟨?_, ?_, ?_⟩
  · intro hv
    exact ⟨by simp [deps_get_current_user, hv],
           by simp [app_get_current_user, hv]⟩
  · intro uid hv hu
    exact ⟨by simp [deps_get_current_user, hv, hu],
           by simp [app_get_current_user, hv, hu]⟩
  · intro uid u hv hu
    refine ⟨?_, ?_, ?_, ?_⟩
    · intro hia
      simp [deps_get_current_user, hv, hu, hia]
    · intro hia
      simp [deps_get_current_user, hv, hu, hia]
    · simp [app_get_current_user, hv, hu]
    · exact List.mem_of_find?_eq_some hu

/-- A user record with the active flag cleared, for the C6 instances. -/
def inactiveUser : UserDoc :=
  { id := "u9", name := "dora", email := "dora@example.com"
    hashed_password := { salt := 0, digest := 0 }
    is_active := false, created_at := 0, updated_at := 0 }

/-- A token whose subject is the inactive user, signed with the concrete
signature function `fun k c => k + c.exp` under key 5 at time 100. -/
def inactiveUserToken : Token :=
  create_access_token (fun k c => k + c.exp) 5 100 (some "u9") (some 60)

/-- Counterexample to C6 as stated: on a valid token for a user whose active
flag is false, the `app/api/v1/auth.py` variant of identity resolution
returns the user instead of signalling the InactiveAccount outcome
(HTTP 400). -/
theorem C6_counterexample :
    inactiveUser.is_active = false ∧
    app_get_current_user (fun k c => k + c.exp) 5 100 [inactiveUser]
      inactiveUserToken = .ok inactiveUser ∧
    app_get_current_user (fun k c => k + c.exp) 5 100 [inactiveUser]
      inactiveUserToken ≠ .error .badRequest400 := by
  refine ⟨rfl, rfl, ?_⟩
  intro h
  exact Except.noConfusion h

/-- Witness for the amended C6 at the concrete inactive user: verification
succeeds, the lookup finds the user, the backend deps variant answers 400
and the app variant returns the user. -/
theorem C6_amended_identity_resolution_witness :
    verify_token (fun k c => k + c.exp) 5 100 inactiveUserToken =
      some "u9" ∧
    users_get_by_id [inactiveUser] "u9" = some inactiveUser ∧
    inactiveUser.is_active = false ∧
    deps_get_current_user (fun k c => k + c.exp) 5 100 [inactiveUser]
      inactiveUserToken = .error .badRequest400 ∧
    app_get_current_user (fun k c => k + c.exp) 5 100 [inactiveUser]
      inactiveUserToken = .ok inactiveUser :=
  ⟨rfl, rfl, rfl,
   ((C6_amended_identity_resolution (fun k c => k + c.exp) 5 100
       [inactiveUser] inactiveUserToken).2.2 "u9" inactiveUser rfl rfl).1 rfl,
   (((C6_amended_identity_resolution (fun k c => k + c.exp) 5 100
       [inactiveUser] inactiveUserToken).2.2 "u9" inactiveUser rfl
       rfl).2.2).1⟩

/-- C1 (amended): in the manual CRUD variant (`api/v1`), a read, update or
delete by an authenticated user of an existing task or label owned by a
different user is rejected with Forbidden (403), distinct from NotFound, and
leaves the store unchanged; in the route-embedded variant
(`backend/api/v1/tasks.py`), per-id lookups and deletes are owner-scoped, so
a task owned by a different user is reported as NotFound (404), never
Forbidden, whether or not it exists. -/
theorem C1_amended_other_owner_rejection
    (tasks : List Task) (labels : List LabelDoc) (u : UserDoc)
    (blabels : List LabelDoc) (btasks : List BTask)
    (tid lid btid : String) (t : Task) (l : LabelDoc)
    (td : TaskUpdate) (ld : LabelUpdate) (btd : BTaskUpdate) (now : Nat)
    (ht : task_crud_get_by_id tasks tid = some t)
    (hto : t.user_id ≠ u.id)
    (hl : label_crud_get_by_id labels lid = some l)
    (hlo : l.user_id ≠ u.id)
    (hbt : ∀ bt ∈ btasks, bt.id = btid → bt.user_id ≠ u.id) :
    api_get_task tasks tid u = .failure .forbidden403 ∧
    api_update_task tasks tid td u now = (.failure .forbidden403, tasks) ∧
    api_delete_task tasks tid u = (.failure .forbidden403, tasks) ∧
    api_get_label labels lid u = .failure .forbidden403 ∧
    api_update_label labels lid ld u = (.failure .forbidden403, labels) ∧
    api_delete_label labels lid u = (.failure .forbidden403, labels) ∧
    backend_get_task btasks btid u.id = .failure .notFound404 ∧
    backend_update_task blabels btasks btid btd u.id now =
      (.failure .notFound404, btasks) ∧
    backend_delete_task btasks btid u.id =
      (.failure .notFound404, btasks) := by
  have hnone :
      btasks.find? (fun bt => bt.id == btid && bt.user_id == u.id) = none := by
    rw [List.find?_eq_none]
    intro x hx
    simp only [Bool.and_eq_true, beq_iff_eq, not_and]
    exact fun h1 => hbt x hx h1
  refine ⟨?_, ?_, ?_, ?_, ?_, ?_, ?_, ?_, ?_⟩
  · simp [api_get_task, ht, hto]
  · simp [api_update_task, ht, hto]
  · simp [api_delete_task, ht, hto]
  · simp [api_get_label, hl, hlo]
  · simp [api_update_label, hl, hlo]
  · simp [api_delete_label, hl, hlo]
  · simp [backend_get_task, hnone]
  · simp [backend_update_task, hnone]
  · simp [backend_delete_task, hnone]

/-- A task of the route-embedded variant owned by user u2, target of the C1
counterexample. -/
def otherUsersTask : BTask :=
  { id := "t1", user_id := "u2", title := "other", description := none
    priority := .low, deadline := none, status := .incomplete, labels := []
    created_at := 0, updated_at := 0 }

/-- Counterexample to C1 as stated: in the route-embedded variant, user u1
reading or deleting the existing task of user u2 receives NotFound (404),
not the Forbidden outcome (403) the claim requires for every variant. -/
theorem C1_counterexample :
    otherUsersTask.user_id ≠ "u1" ∧
    backend_get_task [otherUsersTask] "t1" "u1" = .failure .notFound404 ∧
    backend_get_task [otherUsersTask] "t1" "u1" ≠ .failure .forbidden403 ∧
    backend_delete_task [otherUsersTask] "t1" "u1" =
      (.failure .notFound404, [otherUsersTask]) := by
  refine ⟨by decide, rfl, by decide, rfl⟩

/-- The acting user of the manual CRUD instances: id u1, active. -/
def actingUser : UserDoc :=
  { id := "u1", name := "alice", email := "alice@example.com"
    hashed_password := { salt := 0, digest := 0 }
    is_active := true, created_at := 0, updated_at := 0 }

/-- A manual CRUD task owned by user u2. -/
def apiOtherTask : Task :=
  { id := "t1", title := "other", description := none, status := .pending
    user_id := "u2", label_ids := [], due_date := none
    created_at := 0, updated_at := 0 }

/-- A manual CRUD label owned by user u2. -/
def apiOtherLabel : LabelDoc :=
  { id := "l1", user_id := "u2", name := "Work", color := "#EF4444"
    created_at := 0 }

/-- The all-empty task update request. -/
def emptyTaskUpdate : TaskUpdate :=
  { title := none, description := none, status := none, label_ids := none
    due_date := none }

/-- The all-empty label update request. -/
def emptyLabelUpdate : LabelUpdate := { name := none, color := none }

/-- The all-empty task update request of the route-embedded variant. -/
def emptyBTaskUpdate : BTaskUpdate :=
  { title := none, description := none, priority := none, deadline := none
    status := none, labels := none }

/-- Witness for the amended C1: user u1 against the task and label of user
u2 in both variants. -/
theorem C1_amended_other_owner_rejection_witness :
    apiOtherTask.user_id ≠ actingUser.id ∧
    apiOtherLabel.user_id ≠ actingUser.id ∧
    (api_get_task [apiOtherTask] "t1" actingUser = .failure .forbidden403 ∧
     api_update_task [apiOtherTask] "t1" emptyTaskUpdate actingUser 5 =
       (.failure .forbidden403, [apiOtherTask]) ∧
     api_delete_task [apiOtherTask] "t1" actingUser =
       (.failure .forbidden403, [apiOtherTask]) ∧
     api_get_label [apiOtherLabel] "l1" actingUser =
       .failure .forbidden403 ∧
     api_update_label [apiOtherLabel] "l1" emptyLabelUpdate actingUser =
       (.failure .forbidden403, [apiOtherLabel]) ∧
     api_delete_label [apiOtherLabel] "l1" actingUser =
       (.failure .forbidden403, [apiOtherLabel]) ∧
     backend_get_task [otherUsersTask] "t1" actingUser.id =
       .failure .notFound404 ∧
     backend_update_task [] [otherUsersTask] "t1" emptyBTaskUpdate
       actingUser.id 5 = (.failure .notFound404, [otherUsersTask]) ∧
     backend_delete_task [otherUsersTask] "t1" actingUser.id =
       (.failure .notFound404, [otherUsersTask])) :=
  ⟨by decide, by decide,
   C1_amended_other_owner_rejection [apiOtherTask] [apiOtherLabel] actingUser
     [] [otherUsersTask] "t1" "l1" "t1" apiOtherTask apiOtherLabel
     emptyTaskUpdate emptyLabelUpdate emptyBTaskUpdate 5 rfl (by decide) rfl
     (by decide) (by decide)⟩

/-- C2: a resource identifier naming no existing task or label yields
NotFound (404) from every guarded read, update and delete of both embedded
variants, before any ownership comparison (the manual CRUD guards compare
ownership only on a successful lookup), and never the Forbidden outcome. -/
theorem C2_nonexistent_is_notfound
    (tasks : List Task) (labels : List LabelDoc) (u : UserDoc)
    (blabels bdlabels : List LabelDoc) (btasks : List BTask)
    (uid tid lid : String)
    (td : TaskUpdate) (ld : LabelUpdate) (btd : BTaskUpdate) (now : Nat)
    (ht : task_crud_get_by_id tasks tid = none)
    (hl : label_crud_get_by_id labels lid = none)
    (hbt : ∀ bt ∈ btasks, bt.id ≠ tid)
    (hbl : ∀ bl ∈ bdlabels, bl.id ≠ lid) :
    api_get_task tasks tid u = .failure .notFound404 ∧
    api_update_task tasks tid td u now = (.failure .notFound404, tasks) ∧
    api_delete_task tasks tid u = (.failure .notFound404, tasks) ∧
    api_get_label labels lid u = .failure .notFound404 ∧
    api_update_label labels lid ld u = (.failure .notFound404, labels) ∧
    api_delete_label labels lid u = (.failure .notFound404, labels) ∧
    backend_get_task btasks tid uid = .failure .notFound404 ∧
    backend_update_task blabels btasks tid btd uid now =
      (.failure .notFound404, btasks) ∧
    backend_delete_task btasks tid uid = (.failure .notFound404, btasks) ∧
    backend_delete_label bdlabels btasks lid uid =
      (.failure .notFound404, bdlabels, btasks) ∧
    (.failure .notFound404 : RouteResult Task) ≠ .failure .forbidden403 := by
  have hnone :
      btasks.find? (fun bt => bt.id == tid && bt.user_id == uid) = none := by
    rw [List.find?_eq_none]
    intro x hx
    simp only [Bool.and_eq_true, beq_iff_eq, not_and]
    exact fun h1 _ => hbt x hx h1
  have hlnone :
      bdlabels.find? (fun bl => bl.id == lid && bl.user_id == uid) = none := by
    rw [List.find?_eq_none]
    intro x hx
    simp only [Bool.and_eq_true, beq_iff_eq, not_and]
    exact fun h1 _ => hbl x hx h1
  refine ⟨?_, ?_, ?_, ?_, ?_, ?_, ?_, ?_, ?_, ?_, by decide⟩
  · simp [api_get_task, ht]
  · simp [api_update_task, ht]
  · simp [api_delete_task, ht]
  · simp [api_get_label, hl]
  · simp [api_update_label, hl]
  · simp [api_delete_label, hl]
  · simp [backend_get_task, hnone]
  · simp [backend_update_task, hnone]
  · simp [backend_delete_task, hnone]
  · simp [backend_delete_label, hlnone]

/-- Witness for C2: the identifier ghost names no task and no label in
either variant, and every guarded operation answers 404. -/
theorem C2_nonexistent_is_notfound_witness :
    task_crud_get_by_id [apiOtherTask] "ghost" = none ∧
    label_crud_get_by_id [apiOtherLabel] "ghost" = none ∧
    (api_get_task [apiOtherTask] "ghost" actingUser =
       .failure .notFound404 ∧
     api_update_task [apiOtherTask] "ghost" emptyTaskUpdate actingUser 5 =
       (.failure .notFound404, [apiOtherTask]) ∧
     api_delete_task [apiOtherTask] "ghost" actingUser =
       (.failure .notFound404, [apiOtherTask]) ∧
     api_get_label [apiOtherLabel] "ghost" actingUser =
       .failure .notFound404 ∧
     api_update_label [apiOtherLabel] "ghost" emptyLabelUpdate actingUser =
       (.failure .notFound404, [apiOtherLabel]) ∧
     api_delete_label [apiOtherLabel] "ghost" actingUser =
       (.failure .notFound404, [apiOtherLabel]) ∧
     backend_get_task [otherUsersTask] "ghost" "u1" =
       .failure .notFound404 ∧
     backend_update_task [] [otherUsersTask] "ghost" emptyBTaskUpdate "u1"
       5 = (.failure .notFound404, [otherUsersTask]) ∧
     backend_delete_task [otherUsersTask] "ghost" "u1" =
       (.failure .notFound404, [otherUsersTask]) ∧
     backend_delete_label [apiOtherLabel] [otherUsersTask] "ghost" "u1" =
       (.failure .notFound404, [apiOtherLabel], [otherUsersTask]) ∧
     (.failure .notFound404 : RouteResult Task) ≠ .failure .forbidden403) :=
  ⟨by decide, by decide,
   C2_nonexistent_is_notfound [apiOtherTask] [apiOtherLabel] actingUser []
     [apiOtherLabel] [otherUsersTask] "u1" "ghost" "ghost" emptyTaskUpdate
     emptyLabelUpdate emptyBTaskUpdate 5 (by decide) (by decide) (by decide)
     (by decide)⟩

theorem mem_insertByCreatedDesc {x t : BTask} {l : List BTask} :
    x ∈ insertByCreatedDesc t l ↔ x = t ∨ x ∈ l := by
  induction l with
  | nil => simp [insertByCreatedDesc]
  | cons y ys ih =>
    by_cases h : y.created_at ≤ t.created_at
    · simp [insertByCreatedDesc, h]
    · simp [insertByCreatedDesc, h, ih]
      tauto

theorem mem_sortByCreatedDesc {x : BTask} {l : List BTask} :
    x ∈ sortByCreatedDesc l ↔ x ∈ l := by
  induction l with
  | nil => simp [sortByCreatedDesc]
  | cons y ys ih => simp [sortByCreatedDesc, mem_insertByCreatedDesc, ih]

theorem bTaskMatches_owner {q : BTasksQuery} {uid : String} {t : BTask}
    (h : bTaskMatches q uid t = true) : t.user_id = uid := by
  simp only [bTaskMatches, Bool.and_eq_true, beq_iff_eq] at h
  exact h.1.1.1

/-- The two possible stores after `backend_update_task`: untouched, or with
the matching task rewritten in place. -/
theorem backend_update_task_state (labels : List LabelDoc)
    (tasks : List BTask) (tid : String) (btd : BTaskUpdate) (uid : String)
    (now : Nat) :
    (backend_update_task labels tasks tid btd uid now).2 = tasks ∨
    (backend_update_task labels tasks tid btd uid now).2 =
      tasks.map (fun t =>
        if t.id == tid then applyBTaskUpdate btd now t else t) := by
  unfold backend_update_task
  split
  · exact Or.inl rfl
  · split
    · exact Or.inl rfl
    · split
      · exact Or.inl rfl
      · right
        dsimp only
        split <;> rfl

/-- C3: in the route-embedded variant, a created task is stored with
`user_id` equal to the acting identity and nothing else is touched; the
listing and the single read return only tasks owned by the acting identity;
and neither update nor delete ever removes or rewrites a task owned by a
different user (document ids being unique in the store). -/
theorem C3_task_ownership_invariant (labels : List LabelDoc)
    (tasks : List BTask) (uid newId tid : String) (td : BTaskCreate)
    (q : BTasksQuery) (btd : BTaskUpdate) (now : Nat)
    (hids : ∀ t1 ∈ tasks, ∀ t2 ∈ tasks, t1.id = t2.id → t1 = t2) :
    (∀ c v, (backend_create_task labels tasks td uid newId now).1 =
        .success c v →
      v.user_id = uid ∧
      (backend_create_task labels tasks td uid newId now).2 =
        tasks ++ [v]) ∧
    (∀ t, t ∈ (backend_create_task labels tasks td uid newId now).2 →
      t ∈ tasks ∨ t.user_id = uid) ∧
    (∀ page total,
      backend_get_tasks tasks q uid = .success .ok200 (page, total) →
      ∀ t ∈ page, t.user_id = uid) ∧
    (∀ c t, backend_get_task tasks tid uid = .success c t →
      t.user_id = uid ∧ t ∈ tasks) ∧
    (∀ t ∈ tasks, t.user_id ≠ uid →
      t ∈ (backend_update_task labels tasks tid btd uid now).2) ∧
    (∀ t ∈ tasks, t.user_id ≠ uid →
      t ∈ (backend_delete_task tasks tid uid).2) := by
  refine ⟨?_, ?_, ?_, ?_, ?_, ?_⟩
  · intro c v h
    by_cases hv : backendLabelsValid labels td.labels uid
    · simp only [backend_create_task, if_pos hv] at h ⊢
      cases h
      exact ⟨rfl, rfl⟩
    · simp only [backend_create_task, if_neg hv] at h
      exact absurd h (by simp)
  · intro t ht
    by_cases hv : backendLabelsValid labels td.labels uid
    · simp only [backend_create_task, if_pos hv, List.mem_append,
        List.mem_singleton] at ht
      rcases ht with h | h
      · exact Or.inl h
      · exact Or.inr (by rw [h])
    · simp only [backend_create_task, if_neg hv] at ht
      exact Or.inl ht
  · intro page total h t htp
    simp only [backend_get_tasks, RouteResult.success.injEq, Prod.mk.injEq,
      true_and] at h
    rw [← h.1] at htp
    have h1 := List.take_subset _ _ htp
    have h2 := List.drop_subset _ _ h1
    have h3 := mem_sortByCreatedDesc.mp h2
    exact bTaskMatches_owner (List.mem_filter.mp h3).2
  · intro c t h
    cases hfind : tasks.find? (fun x => x.id == tid && x.user_id == uid) with
    | none => simp [backend_get_task, hfind] at h
    | some t0 =>
      simp only [backend_get_task, hfind, RouteResult.success.injEq] at h
      have hp := List.find?_some hfind
      simp only [Bool.and_eq_true, beq_iff_eq] at hp
      refine ⟨?_, ?_⟩
      · rw [← h.2]; exact hp.2
      · rw [← h.2]; exact List.mem_of_find?_eq_some hfind
  · intro t htm hto
    cases hfind : tasks.find? (fun x => x.id == tid && x.user_id == uid) with
    | none =>
      have h2 : (backend_update_task labels tasks tid btd uid now).2 =
          tasks := by
        simp [backend_update_task, hfind]
      rw [h2]; exact htm
    | some t0 =>
      rcases backend_update_task_state labels tasks tid btd uid now with
        hst | hst
      · rw [hst]; exact htm
      · rw [hst]
        have hp := List.find?_some hfind
        simp only [Bool.and_eq_true, beq_iff_eq] at hp
        have ht0 := List.mem_of_find?_eq_some hfind
        have hid : t.id ≠ tid := by
          intro hid
          exact hto (by rw [hids t htm t0 ht0 (by rw [hid, hp.1])]; exact hp.2)
        exact List.mem_map.mpr ⟨t, htm, by simp [hid]⟩
  · intro t htm hto
    cases hfind : tasks.find? (fun x => x.id == tid && x.user_id == uid) with
    | none => simp [backend_delete_task, hfind]; exact htm
    | some t0 =>
      simp only [backend_delete_task, hfind]
      exact (List.mem_eraseP_of_neg (by simp [hto])).mpr htm

/-- A task of the route-embedded variant owned by user u1. -/
def ownTask : BTask :=
  { id := "t0", user_id := "u1", title := "mine", description := none
    priority := .medium, deadline := none, status := .incomplete
    labels := [], created_at := 1, updated_at := 1 }

/-- The creation request of the concrete task instances. -/
def milkCreate : BTaskCreate :=
  { title := "Buy milk", description := none, priority := .low
    deadline := none, labels := [] }

/-- The task document the route-embedded `create_task` inserts for
`milkCreate` by user u1 with id t9 at time 5. -/
def milkTask : BTask :=
  { id := "t9", user_id := "u1", title := "Buy milk", description := none
    priority := .low, deadline := none, status := .incomplete, labels := []
    created_at := 5, updated_at := 5 }

/-- The filterless first page of the task listing. -/
def anyQuery : BTasksQuery :=
  { status := none, priority := none, label_id := none, skip := 0
    limit := 100 }

/-- Witness for C3 on a concrete two-user store: creation stores u1 as the
owner, and neither an update nor a delete by u1 disturbs the task of u2. -/
theorem C3_task_ownership_invariant_witness :
    otherUsersTask.user_id ≠ "u1" ∧
    ((backend_create_task [] [ownTask, otherUsersTask] milkCreate "u1" "t9"
        5).1 = .success .created201 milkTask ∧
     milkTask.user_id = "u1" ∧
     (backend_create_task [] [ownTask, otherUsersTask] milkCreate "u1" "t9"
        5).2 = [ownTask, otherUsersTask] ++ [milkTask]) ∧
    otherUsersTask ∈
      (backend_update_task [] [ownTask, otherUsersTask] "t0"
        emptyBTaskUpdate "u1" 5).2 ∧
    otherUsersTask ∈
      (backend_delete_task [ownTask, otherUsersTask] "t0" "u1").2 := by
  have H := C3_task_ownership_invariant [] [ownTask, otherUsersTask] "u1"
    "t9" "t0" milkCreate anyQuery emptyBTaskUpdate 5 (by decide)
  exact ⟨by decide,
    ⟨by decide, (H.1 .created201 milkTask (by decide)).1,
     (H.1 .created201 milkTask (by decide)).2⟩,
    H.2.2.2.2.1 otherUsersTask (by decide) (by decide),
    H.2.2.2.2.2 otherUsersTask (by decide) (by decide)⟩

theorem find?_append_of_none {α : Type} {p : α → Bool} {l1 l2 : List α}
    (h : l1.find? p = none) : (l1 ++ l2).find? p = l2.find? p := by
  rw [List.find?_append, h]; rfl

/-- C7: label name uniqueness is enforced per user and only per user, in
both the route-embedded variant (`backend/api/v1/labels.py`) and the
ODM-style variant (`app/api/v1/labels.py`): with the name fresh for both
users, the first creation succeeds and is stored; a second creation of the
same name by the same user fails with the duplicate-name 400 and leaves the
store (including the existing label) unchanged; a creation of the same name
by the other user succeeds. -/
theorem C7_label_name_uniqueness (labels : List LabelDoc) (n c1 c2 : String)
    (u1 u2 : UserDoc) (id1 id2 : String) (now1 now2 : Nat)
    (hne : u2.id ≠ u1.id)
    (hfresh1 : ∀ l ∈ labels, ¬(l.user_id = u1.id ∧ l.name = n))
    (hfresh2 : ∀ l ∈ labels, ¬(l.user_id = u2.id ∧ l.name = n)) :
    (backend_create_label labels ⟨n, c1⟩ u1.id id1 now1 =
       (.success .created201 ⟨id1, u1.id, n, c1, now1⟩,
        labels ++ [⟨id1, u1.id, n, c1, now1⟩]) ∧
     backend_create_label (labels ++ [⟨id1, u1.id, n, c1, now1⟩]) ⟨n, c2⟩
         u1.id id2 now2 =
       (.failure .badRequest400, labels ++ [⟨id1, u1.id, n, c1, now1⟩]) ∧
     backend_create_label (labels ++ [⟨id1, u1.id, n, c1, now1⟩]) ⟨n, c2⟩
         u2.id id2 now2 =
       (.success .created201 ⟨id2, u2.id, n, c2, now2⟩,
        (labels ++ [⟨id1, u1.id, n, c1, now1⟩]) ++
          [⟨id2, u2.id, n, c2, now2⟩])) ∧
    (app_create_label_endpoint labels ⟨n, c1⟩ u1 id1 now1 =
       (.success .ok200 ⟨id1, u1.id, n, c1, now1⟩,
        labels ++ [⟨id1, u1.id, n, c1, now1⟩]) ∧
     app_create_label_endpoint (labels ++ [⟨id1, u1.id, n, c1, now1⟩])
         ⟨n, c2⟩ u1 id2 now2 =
       (.failure .badRequest400, labels ++ [⟨id1, u1.id, n, c1, now1⟩]) ∧
     app_create_label_endpoint (labels ++ [⟨id1, u1.id, n, c1, now1⟩])
         ⟨n, c2⟩ u2 id2 now2 =
       (.success .ok200 ⟨id2, u2.id, n, c2, now2⟩,
        (labels ++ [⟨id1, u1.id, n, c1, now1⟩]) ++
          [⟨id2, u2.id, n, c2, now2⟩])) := by
  have hB1 : labels.find? (fun l => l.user_id == u1.id && l.name == n) =
      none := by
    rw [List.find?_eq_none]
    intro x hx
    simp only [Bool.and_eq_true, beq_iff_eq, not_and]
    exact fun h1 h2 => hfresh1 x hx ⟨h1, h2⟩
  have hB2 : labels.find? (fun l => l.user_id == u2.id && l.name == n) =
      none := by
    rw [List.find?_eq_none]
    intro x hx
    simp only [Bool.and_eq_true, beq_iff_eq, not_and]
    exact fun h1 h2 => hfresh2 x hx ⟨h1, h2⟩
  have hA1 : labels.find? (fun l => l.name == n && l.user_id == u1.id) =
      none := by
    rw [List.find?_eq_none]
    intro x hx
    simp only [Bool.and_eq_true, beq_iff_eq, not_and]
    exact fun h1 h2 => hfresh1 x hx ⟨h2, h1⟩
  have hA2 : labels.find? (fun l => l.name == n && l.user_id == u2.id) =
      none := by
    rw [List.find?_eq_none]
    intro x hx
    simp only [Bool.and_eq_true, beq_iff_eq, not_and]
    exact fun h1 h2 => hfresh2 x hx ⟨h2, h1⟩
  refine ⟨⟨?_, ?_, ?_⟩, ⟨?_, ?_, ?_⟩⟩
  · simp [backend_create_label, hB1]
  · rw [backend_create_label, find?_append_of_none hB1]
    simp
  · rw [backend_create_label]
    dsimp only
    rw [find?_append_of_none hB2]
    have hne' : u1.id ≠ u2.id := fun h => hne h.symm
    simp [hne']
  · simp [app_create_label_endpoint, app_get_label_by_name, hA1]
  · rw [app_create_label_endpoint, app_get_label_by_name,
      find?_append_of_none hA1]
    simp
  · rw [app_create_label_endpoint, app_get_label_by_name]
    dsimp only
    rw [find?_append_of_none hA2]
    have hne' : u1.id ≠ u2.id := fun h => hne h.symm
    simp [hne']

/-- A second user record, id u2, for the two-user instances. -/
def secondUser : UserDoc :=
  { id := "u2", name := "bob", email := "bob@example.com"
    hashed_password := { salt := 0, digest := 0 }
    is_active := true, created_at := 0, updated_at := 0 }

/-- Witness for C7 starting from an empty store: user u1 creates Chores,
cannot create it twice, and user u2 creates Chores successfully. -/
theorem C7_label_name_uniqueness_witness :
    secondUser.id ≠ actingUser.id ∧
    (backend_create_label [] ⟨"Chores", "#111111"⟩ actingUser.id "l5" 3 =
       (.success .created201 ⟨"l5", actingUser.id, "Chores", "#111111", 3⟩,
        [] ++ [⟨"l5", actingUser.id, "Chores", "#111111", 3⟩]) ∧
     backend_create_label ([] ++
         [⟨"l5", actingUser.id, "Chores", "#111111", 3⟩])
         ⟨"Chores", "#222222"⟩ actingUser.id "l6" 4 =
       (.failure .badRequest400,
        [] ++ [⟨"l5", actingUser.id, "Chores", "#111111", 3⟩]) ∧
     backend_create_label ([] ++
         [⟨"l5", actingUser.id, "Chores", "#111111", 3⟩])
         ⟨"Chores", "#222222"⟩ secondUser.id "l6" 4 =
       (.success .created201 ⟨"l6", secondUser.id, "Chores", "#222222", 4⟩,
        ([] ++ [⟨"l5", actingUser.id, "Chores", "#111111", 3⟩]) ++
          [⟨"l6", secondUser.id, "Chores", "#222222", 4⟩])) ∧
    (app_create_label_endpoint [] ⟨"Chores", "#111111"⟩ actingUser "l5" 3 =
       (.success .ok200 ⟨"l5", actingUser.id, "Chores", "#111111", 3⟩,
        [] ++ [⟨"l5", actingUser.id, "Chores", "#111111", 3⟩]) ∧
     app_create_label_endpoint ([] ++
         [⟨"l5", actingUser.id, "Chores", "#111111", 3⟩])
         ⟨"Chores", "#222222"⟩ actingUser "l6" 4 =
       (.failure .badRequest400,
        [] ++ [⟨"l5", actingUser.id, "Chores", "#111111", 3⟩]) ∧
     app_create_label_endpoint ([] ++
         [⟨"l5", actingUser.id, "Chores", "#111111", 3⟩])
         ⟨"Chores", "#222222"⟩ secondUser "l6" 4 =
       (.success .ok200 ⟨"l6", secondUser.id, "Chores", "#222222", 4⟩,
        ([] ++ [⟨"l5", actingUser.id, "Chores", "#111111", 3⟩]) ++
          [⟨"l6", secondUser.id, "Chores", "#222222", 4⟩])) :=
  ⟨by decide,
   C7_label_name_uniqueness [] "Chores" "#111111" "#222222" actingUser
     secondUser "l5" "l6" 3 4 (by decide) (by decide) (by decide)⟩

/-- With document ids unique in the store, erasing the owned label with a
given id leaves no label carrying that id. -/
theorem eraseP_owned_id_gone (lid uid : String) (l0 : LabelDoc) :
    ∀ labels : List LabelDoc, (labels.map (fun l => l.id)).Nodup →
      l0 ∈ labels → l0.id = lid → l0.user_id = uid →
      ∀ l ∈ labels.eraseP (fun l => l.id == lid && l.user_id == uid),
        l.id ≠ lid := by
  intro labels
  induction labels with
  | nil => intro _ h; simp at h
  | cons a t ih =>
    intro hnd hmem hid hown l hl
    simp only [List.map_cons, List.nodup_cons, List.mem_map, not_exists,
      not_and] at hnd
    by_cases hpa : (a.id == lid && a.user_id == uid) = true
    · rw [List.eraseP_cons_of_pos
        (p := fun l : LabelDoc => l.id == lid && l.user_id == uid) hpa]
        at hl
      have haid : a.id = lid := by
        simp only [Bool.and_eq_true, beq_iff_eq] at hpa
        exact hpa.1
      intro hlid
      exact hnd.1 l hl (by rw [hlid, haid])
    · rw [List.eraseP_cons_of_neg
        (p := fun l : LabelDoc => l.id == lid && l.user_id == uid)
        (by simpa using hpa)] at hl
      have hl0t : l0 ∈ t := by
        rcases List.mem_cons.mp hmem with h | h
        · exact absurd (by rw [← h]; simp [hid, hown]) hpa
        · exact h
      rcases List.mem_cons.mp hl with h | h
      · rw [h]
        intro haid
        exact hnd.1 l0 hl0t (by rw [hid, haid])
      · exact ih hnd.2 hl0t hid hown l h

/-- C8: label deletion semantics of the two variants.  Route-embedded
(`backend/api/v1/labels.py`): deleting an owned label answers 204, removes
the label, and pulls its id from the label set of every task of that user
while leaving every other task field and every other user task untouched;
when the user owns no such label the route answers 404 and changes nothing.
ODM-style (`app/api/v1/labels.py`): deletion is rejected with 400 and no
state change whenever at least one of the user tasks references the label,
succeeds only when the usage count is zero, and never touches the task
store. -/
theorem C8_label_deletion_variants (labels : List LabelDoc)
    (btasks : List BTask) (alabels : List LabelDoc) (atasks : List Task)
    (lid : String) (u : UserDoc)
    (hnd : (labels.map (fun l => l.id)).Nodup)
    (hnda : (alabels.map (fun l => l.id)).Nodup) :
    (∀ l0 ∈ labels, l0.id = lid → l0.user_id = u.id →
      (backend_delete_label labels btasks lid u.id).1 =
        .success .noContent204 () ∧
      (∀ l ∈ (backend_delete_label labels btasks lid u.id).2.1,
        l.id ≠ lid) ∧
      (∀ t ∈ (backend_delete_label labels btasks lid u.id).2.2,
        t.user_id = u.id → lid ∉ t.labels) ∧
      (∀ t ∈ btasks, t.user_id ≠ u.id →
        t ∈ (backend_delete_label labels btasks lid u.id).2.2) ∧
      (∀ t ∈ btasks, t.user_id = u.id →
        { t with labels := t.labels.filter (fun x => x != lid) } ∈
          (backend_delete_label labels btasks lid u.id).2.2)) ∧
    ((∀ l ∈ labels, ¬(l.id = lid ∧ l.user_id = u.id)) →
      backend_delete_label labels btasks lid u.id =
        (.failure .notFound404, labels, btasks)) ∧
    (0 < app_get_label_usage_count atasks lid u.id →
      app_delete_label_endpoint alabels atasks lid u =
        (.failure .badRequest400, alabels, atasks)) ∧
    (∀ c v, (app_delete_label_endpoint alabels atasks lid u).1 =
        .success c v → app_get_label_usage_count atasks lid u.id = 0) ∧
    (app_get_label_usage_count atasks lid u.id = 0 →
      ∀ l0 ∈ alabels, l0.id = lid → l0.user_id = u.id →
        (app_delete_label_endpoint alabels atasks lid u).1 =
          .success .ok200 () ∧
        (app_delete_label_endpoint alabels atasks lid u).2.2 = atasks ∧
        (∀ l ∈ (app_delete_label_endpoint alabels atasks lid u).2.1,
          l.id ≠ lid)) := by
  refine ⟨?_, ?_, ?_, ?_, ?_⟩
  · intro l0 hmem hid hown
    cases hfind : labels.find? (fun l => l.id == lid && l.user_id == u.id)
      with
    | none =>
      exact absurd
        (show (l0.id == lid && l0.user_id == u.id) = true by
          simp [hid, hown])
        (List.find?_eq_none.mp hfind l0 hmem)
    | some lf =>
      simp only [backend_delete_label, hfind]
      refine ⟨by trivial, ?_, ?_, ?_, ?_⟩
      · exact eraseP_owned_id_gone lid u.id l0 labels hnd hmem hid hown
      · intro t ht hto
        obtain ⟨s, hs, hfs⟩ := List.mem_map.mp ht
        by_cases hsu : s.user_id = u.id
        · rw [← hfs,
            if_pos (show (s.user_id == u.id) = true by simp [hsu])]
          show lid ∉ s.labels.filter (fun x => x != lid)
          intro hmm
          have := (List.mem_filter.mp hmm).2
          simp at this
        · rw [← hfs,
            if_neg (show ¬(s.user_id == u.id) = true by simp [hsu])]
            at hto
          exact absurd hto hsu
      · intro t ht hto
        exact List.mem_map.mpr ⟨t, ht,
          by rw [if_neg (show ¬(t.user_id == u.id) = true by simp [hto])]⟩
      · intro t ht hto
        exact List.mem_map.mpr ⟨t, ht,
          by rw [if_pos (show (t.user_id == u.id) = true by simp [hto])]⟩
  · intro hnone
    have hfind : labels.find? (fun l => l.id == lid && l.user_id == u.id) =
        none := by
      rw [List.find?_eq_none]
      intro x hx
      simp only [Bool.and_eq_true, beq_iff_eq, not_and]
      exact fun h1 h2 => hnone x hx ⟨h1, h2⟩
    simp [backend_delete_label, hfind]
  · intro husage
    simp [app_delete_label_endpoint, husage]
  · intro c v h
    by_cases husage : 0 < app_get_label_usage_count atasks lid u.id
    · simp [app_delete_label_endpoint, husage] at h
    · omega
  · intro husage l0 hmem hid hown
    cases hfind : alabels.find? (fun l => l.id == lid && l.user_id == u.id)
      with
    | none =>
      exact absurd
        (show (l0.id == lid && l0.user_id == u.id) = true by
          simp [hid, hown])
        (List.find?_eq_none.mp hfind l0 hmem)
    | some lf =>
      have hcrud : app_crud_delete_label alabels lid u.id =
          (alabels.eraseP (fun l => l.id == lid && l.user_id == u.id),
           true) := by
        simp [app_crud_delete_label, hfind]
      simp only [app_delete_label_endpoint, husage, gt_iff_lt,
        lt_self_iff_false, if_false, hcrud]
      exact ⟨by trivial, by trivial,
        eraseP_owned_id_gone lid u.id l0 alabels hnda hmem hid hown⟩

/-- A label of user u1 about to be deleted. -/
def tempLabel : LabelDoc :=
  { id := "l2", user_id := "u1", name := "Temp", color := "#000000"
    created_at := 0 }

/-- A route-embedded task of user u1 referencing labels l2 and l3. -/
def taggedTask : BTask :=
  { id := "t5", user_id := "u1", title := "tagged", description := none
    priority := .high, deadline := none, status := .incomplete
    labels := ["l2", "l3"], created_at := 2, updated_at := 2 }

/-- An ODM-variant task of user u1 referencing label l2. -/
def refTask : Task :=
  { id := "t6", title := "ref", description := none, status := .pending
    user_id := "u1", label_ids := ["l2"], due_date := none
    created_at := 0, updated_at := 0 }

/-- Witness for C8: deleting label l2 in the route-embedded variant answers
204 and pulls l2 from the tagged task; the ODM variant rejects the deletion
with 400 while a task references l2 and succeeds once no task does. -/
theorem C8_label_deletion_variants_witness :
    tempLabel.id = "l2" ∧ tempLabel.user_id = actingUser.id ∧
    (backend_delete_label [tempLabel] [taggedTask] "l2" actingUser.id).1 =
      .success .noContent204 () ∧
    { taggedTask with
        labels := taggedTask.labels.filter (fun x => x != "l2") } ∈
      (backend_delete_label [tempLabel] [taggedTask] "l2" actingUser.id).2.2 ∧
    0 < app_get_label_usage_count [refTask] "l2" actingUser.id ∧
    app_delete_label_endpoint [tempLabel] [refTask] "l2" actingUser =
      (.failure .badRequest400, [tempLabel], [refTask]) ∧
    app_get_label_usage_count [] "l2" actingUser.id = 0 ∧
    (app_delete_label_endpoint [tempLabel] [] "l2" actingUser).1 =
      .success .ok200 () := by
  have H1 := C8_label_deletion_variants [tempLabel] [taggedTask] [tempLabel]
    [refTask] "l2" actingUser (by decide) (by decide)
  have H2 := C8_label_deletion_variants [tempLabel] [taggedTask] [tempLabel]
    [] "l2" actingUser (by decide) (by decide)
  exact ⟨by decide, by decide,
    (H1.1 tempLabel (by decide) (by decide) (by decide)).1,
    (H1.1 tempLabel (by decide) (by decide) (by decide)).2.2.2.2 taggedTask
      (by decide) (by decide),
    by decide,
    H1.2.2.1 (by decide),
    by decide,
    (H2.2.2.2.2 (by decide) tempLabel (by decide) (by decide)
      (by decide)).1⟩

/-- C9: an authenticated task creation with a valid title answers 201 and
the created and stored task carries the initial status: pending in the
manual CRUD variant (`crud/task.py` builds the model object with its default
status), incomplete in the route-embedded variant
(`backend/api/v1/tasks.py`, labels valid) — never any other member of the
respective status enumeration. -/
theorem C9_create_task_initial_status (tasks : List Task)
    (btasks : List BTask) (labels : List LabelDoc) (td : TaskCreate)
    (btd : BTaskCreate) (u : UserDoc) (uid newId : String) (now : Nat)
    (hv : backendLabelsValid labels btd.labels uid = true) :
    (∀ c t, (api_create_task tasks td u newId now).1 = .success c t →
      c = .created201 ∧ t.status = .pending) ∧
    (∀ t ∈ (api_create_task tasks td u newId now).2,
      t ∈ tasks ∨ t.status = .pending) ∧
    (∀ c t, (backend_create_task labels btasks btd uid newId now).1 =
        .success c t →
      c = .created201 ∧ t.status = .incomplete) ∧
    (∀ t ∈ (backend_create_task labels btasks btd uid newId now).2,
      t ∈ btasks ∨ t.status = .incomplete) := by
  refine ⟨?_, ?_, ?_, ?_⟩
  · intro c t h
    simp only [api_create_task] at h
    cases h
    exact ⟨rfl, rfl⟩
  · intro t ht
    simp only [api_create_task, List.mem_append, List.mem_singleton] at ht
    rcases ht with h | h
    · exact Or.inl h
    · exact Or.inr (by rw [h])
  · intro c t h
    simp only [backend_create_task, if_pos hv] at h
    cases h
    exact ⟨rfl, rfl⟩
  · intro t ht
    simp only [backend_create_task, if_pos hv, List.mem_append,
      List.mem_singleton] at ht
    rcases ht with h | h
    · exact Or.inl h
    · exact Or.inr (by rw [h])

/-- The manual CRUD creation request of the concrete instance. -/
def apiMilkCreate : TaskCreate :=
  { title := "Buy milk", description := none, label_ids := none
    due_date := none }

/-- The task the manual CRUD `create_task` inserts for `apiMilkCreate` by
user u1 with id t9 at time 5. -/
def apiMilkTask : Task :=
  { id := "t9", title := "Buy milk", description := none, status := .pending
    user_id := "u1", label_ids := [], due_date := none, created_at := 5
    updated_at := 5 }

/-- Witness for C9: both concrete creations answer 201 with the respective
initial status. -/
theorem C9_create_task_initial_status_witness :
    (api_create_task [] apiMilkCreate actingUser "t9" 5).1 =
      .success .created201 apiMilkTask ∧
    apiMilkTask.status = .pending ∧
    (backend_create_task [] [] milkCreate "u1" "t9" 5).1 =
      .success .created201 milkTask ∧
    milkTask.status = .incomplete := by
  have H := C9_create_task_initial_status [] [] [] apiMilkCreate milkCreate
    actingUser "u1" "t9" 5 (by decide)
  exact ⟨by decide,
    (H.1 .created201 apiMilkTask (by decide)).2,
    by decide,
    (H.2.2.1 .created201 milkTask (by decide)).2⟩

/-- C10: a successful registration in the route-embedded variant stores the
new user with the active flag set, and the new user then owns exactly the
two default labels Personal and Work; the seeding inserts the pair only
when the user owns no label yet, so a repeated seeding call adds nothing. -/
theorem C10_register_default_labels (mac : Nat → Claims → Nat) (key : Nat)
    (kdf : Nat → String → Nat) (salt : Nat) (users : List UserDoc)
    (labels : List LabelDoc)
    (email name password newUid lid1 lid2 : String) (now : Nat)
    (hemail : ∀ x ∈ users, x.email ≠ email)
    (hfresh : ∀ l ∈ labels, l.user_id ≠ newUid) :
    (∀ c tu, (backend_register mac key kdf salt users labels email name
        password newUid lid1 lid2 now).1 = .success c tu →
      c = .created201 ∧ tu.2.is_active = true ∧ tu.2.id = newUid) ∧
    (((backend_register mac key kdf salt users labels email name password
        newUid lid1 lid2 now).2.2.filter
          (fun l => l.user_id == newUid)).map (fun l => l.name) =
      ["Personal", "Work"]) ∧
    (∀ x ∈ (backend_register mac key kdf salt users labels email name
        password newUid lid1 lid2 now).2.1,
      x ∈ users ∨ (x.is_active = true ∧ x.email = email)) ∧
    (∀ (ls : List LabelDoc) (uid i1 i2 : String) (n2 : Nat),
      (∃ l ∈ ls, l.user_id = uid) →
      create_default_labels ls uid i1 i2 n2 = ls) := by
  have hfindu : users.find? (fun x => x.email == email) = none := by
    rw [List.find?_eq_none]
    intro x hx
    simpa using hemail x hx
  have hfindl : labels.find? (fun l => l.user_id == newUid) = none := by
    rw [List.find?_eq_none]
    intro l hl
    simpa using hfresh l hl
  refine ⟨?_, ?_, ?_, ?_⟩
  · intro c tu h
    simp only [backend_register, hfindu] at h
    cases h
    exact ⟨rfl, rfl, rfl⟩
  · simp only [backend_register, hfindu, create_default_labels, hfindl]
    rw [List.filter_append]
    have h1 : labels.filter (fun l => l.user_id == newUid) = [] := by
      rw [List.filter_eq_nil_iff]
      intro l hl
      simpa using hfresh l hl
    rw [h1]
    simp
  · intro x hx
    simp only [backend_register, hfindu, List.mem_append,
      List.mem_singleton] at hx
    rcases hx with h | h
    · exact Or.inl h
    · exact Or.inr (by rw [h]; exact ⟨rfl, rfl⟩)
  · intro ls uid i1 i2 n2 ⟨l, hlmem, hluid⟩
    cases hf : ls.find? (fun l => l.user_id == uid) with
    | none =>
      exact absurd (show (l.user_id == uid) = true by simp [hluid])
        (List.find?_eq_none.mp hf l hlmem)
    | some _ => simp [create_default_labels, hf]

/-- The token issued by the concrete registration: subject is the email,
expiry is the default thirty minutes after time 100, signature under the
concrete mac and key 5. -/
def regToken : Token :=
  .signed { sub := some "alice@example.com", exp := 1900, typ := "access" }
    1905

/-- The user record the concrete registration inserts. -/
def regUser : UserDoc :=
  { id := "u7", name := "alice", email := "alice@example.com"
    hashed_password := { salt := 7, digest := 9 }
    is_active := true, created_at := 100, updated_at := 100 }

/-- Witness for C10 on an empty store: the registered user is active, owns
exactly Personal and Work, and the seeding is a no-op for a user who
already owns a label. -/
theorem C10_register_default_labels_witness :
    (backend_register (fun k c => k + c.exp) 5 (fun s p => s + p.length) 7
        [] [] "alice@example.com" "alice" "pw" "u7" "la" "lb" 100).1 =
      .success .created201 (regToken, regUser) ∧
    regUser.is_active = true ∧
    (((backend_register (fun k c => k + c.exp) 5 (fun s p => s + p.length)
        7 [] [] "alice@example.com" "alice" "pw" "u7" "la" "lb"
        100).2.2.filter (fun l => l.user_id == "u7")).map
          (fun l => l.name) = ["Personal", "Work"]) ∧
    create_default_labels [tempLabel] "u1" "x" "y" 3 = [tempLabel] := by
  have H := C10_register_default_labels (fun k c => k + c.exp) 5
    (fun s p => s + p.length) 7 [] [] "alice@example.com" "alice" "pw" "u7"
    "la" "lb" 100 (by decide) (by decide)
  exact ⟨by decide,
    (H.1 .created201 (regToken, regUser) (by decide)).2.1,
    H.2.1,
    H.2.2.2 [tempLabel] "u1" "x" "y" 3 ⟨tempLabel, by decide, by decide⟩⟩

end TodoSpec
